import Mathlib

/-!
Shallow embedding of the Soroban token contract
`src/contracts/token/src/lib.rs` (contract `Token`).

Modelling choices:
* An account identifier (`soroban_sdk::Address`) is opaque; we model it as `Nat`.
* A short interned string (`soroban_sdk::Symbol`) is modelled as `String`.
* Instance storage is a record: the four fixed configuration keys
  (`admin`, `decimal`, `name`, `symbol`) become `Option` fields (absent =
  `none`), and the dynamic per-account balance key space becomes an
  association list from address to `i128` value.  In the source the balance
  keys are `Address` values and the configuration keys are `Symbol` values,
  so the two key spaces never collide; the record keeps them apart the same
  way.
* `i128` values are modelled as `Int`.  The source performs `balance + amount`
  and `from_balance - amount` with the host's native 128-bit semantics;
  overflow behaviour is an external host constraint the spec leaves out of
  scope, so arithmetic is mathematical here.
* `require_auth()` is modelled by threading the set of account identifiers
  that authorized the current invocation as a `List Address` argument; a
  missing authorization aborts the call.
* A contract call either returns a result or aborts with no partial writes
  (host atomicity), so every fallible operation returns
  `Except TokenError Storage`: an `Except.error` carries no storage and hence
  commits nothing.
-/

/-- Account identifier (`soroban_sdk::Address`), opaque. -/
abbrev Address := Nat

/-- Short interned string (`soroban_sdk::Symbol`). -/
abbrev SymStr := String

/-- Lookup in the per-account balance key space: the stored `i128` under key
`id`, or `none` when no entry exists (`env.storage().instance().get(&id)`). -/
def lookupBal : List (Address × Int) → Address → Option Int
  | [], _ => none
  | (a, v) :: rest, id => if a = id then some v else lookupBal rest id

/-- Write in the per-account balance key space
(`env.storage().instance().set(&id, &v)`): overwrite the entry for `id` when
one exists, otherwise create it. -/
def setBal : List (Address × Int) → Address → Int → List (Address × Int)
  | [], id, v => [(id, v)]
  | (a, w) :: rest, id, v =>
    if a = id then (id, v) :: rest else (a, w) :: setBal rest id v

/-- Sum of all stored balance entries (the "total value" of §3 of the spec). -/
def sumBal : List (Address × Int) → Int
  | [] => 0
  | (_, v) :: rest => v + sumBal rest

/-- The contract's instance storage: the four fixed configuration keys plus
the dynamic balance key space. -/
structure Storage where
  admin : Option Address
  decimal : Option Nat
  name : Option SymStr
  symbol : Option SymStr
  balances : List (Address × Int)
deriving Repr, DecidableEq

/-- Storage with no key written yet (a freshly deployed instance). -/
def Storage.empty : Storage := ⟨none, none, none, none, []⟩

/-- The ways a call can abort (spec §7 error taxonomy). -/
inductive TokenError where
  | missingConfiguration
  | authorizationFailure
  | insufficientBalance
deriving Repr, DecidableEq

/-- `a.require_auth()`: succeeds iff the current invocation carries `a`'s
authorization proof. -/
def requireAuth (auths : List Address) (a : Address) : Except TokenError Unit :=
  if a ∈ auths then Except.ok () else Except.error TokenError.authorizationFailure

namespace Token

/-- `Token::initialize(env, admin, decimal, name, symbol)` from the source:
writes the four configuration keys, overwriting any prior values; touches no
balance entry; never fails (it is named `init` here only because of a naming
constraint of the development). -/
def init (s : Storage) (admin : Address) (decimal : Nat) (name symbol : SymStr) :
    Storage :=
  { s with admin := some admin, decimal := some decimal,
           name := some name, symbol := some symbol }

/-- `Token::mint(env, dst, amount)` from the source: read the `admin`
configuration key (`unwrap` aborts the call when it is absent), require the
administrator's authorization, then write `balance(dst) + amount` under key `dst`
(the prior balance defaulting to 0 via `unwrap_or(0)`). -/
def mint (auths : List Address) (s : Storage) (dst : Address) (amount : Int) :
    Except TokenError Storage :=
  match s.admin with
  | none => Except.error TokenError.missingConfiguration
  | some admin =>
    if admin ∈ auths then
      let balance : Int := (lookupBal s.balances dst).getD 0
      Except.ok { s with balances := setBal s.balances dst (balance + amount) }
    else Except.error TokenError.authorizationFailure

/-- `Token::balance(env, id)` from the source: the stored balance of `id`,
defaulting to 0 when no entry exists (`unwrap_or(0)`); a pure read. -/
def balance (s : Storage) (id : Address) : Int :=
  (lookupBal s.balances id).getD 0

/-- `Token::transfer(env, from, to, amount)` from the source (`from` is a Lean
keyword, so the parameters are named `f` and `dst` here): require `from`'s
authorization, read `from`'s balance (default 0), panic with "Insufficient
balance" when it is below `amount`, otherwise read `to`'s balance (default 0)
and write `from_balance - amount` under `from` then `to_balance + amount`
under `to`, in that order. -/
def transfer (auths : List Address) (s : Storage) (f dst : Address)
    (amount : Int) : Except TokenError Storage :=
  if f ∈ auths then
    let from_balance : Int := (lookupBal s.balances f).getD 0
    if from_balance < amount then Except.error TokenError.insufficientBalance
    else
      let to_balance : Int := (lookupBal s.balances dst).getD 0
      let written := setBal (setBal s.balances f (from_balance - amount)) dst
        (to_balance + amount)
      Except.ok { s with balances := written }
  else Except.error TokenError.authorizationFailure

/-- `Token::name(env)` from the source: read the `name` configuration key,
`unwrap` aborting the call when it is absent. -/
def name (s : Storage) : Except TokenError SymStr :=
  match s.name with
  | some n => Except.ok n
  | none => Except.error TokenError.missingConfiguration

/-- `Token::symbol(env)` from the source: read the `symbol` configuration key,
`unwrap` aborting the call when it is absent. -/
def symbol (s : Storage) : Except TokenError SymStr :=
  match s.symbol with
  | some n => Except.ok n
  | none => Except.error TokenError.missingConfiguration

/-- `Token::decimals(env)` from the source: read the `decimal` configuration
key, `unwrap` aborting the call when it is absent. -/
def decimals (s : Storage) : Except TokenError Nat :=
  match s.decimal with
  | some d => Except.ok d
  | none => Except.error TokenError.missingConfiguration

end Token

/-- Total of all stored balance entries of a storage state. -/
def totalBalances (s : Storage) : Int := sumBal s.balances

/-- A sequence of `mint` calls applied left to right, aborting on the first
failure (used to state conservation under minting). -/
def applyMints (auths : List Address) :
    Storage → List (Address × Int) → Except TokenError Storage
  | s, [] => Except.ok s
  | s, (dst, amt) :: rest =>
    match Token.mint auths s dst amt with
    | Except.ok s' => applyMints auths s' rest
    | Except.error e => Except.error e

example : Token.balance Storage.empty 7 = 0 := by decide

example :
    Token.mint [1] (Token.init Storage.empty 1 6 "MyToken" "MTK") 5 1000 =
      Except.ok ⟨some 1, some 6, some "MyToken", some "MTK", [(5, 1000)]⟩ := by
  rfl

/-! ## Storage-helper lemmas -/

theorem lookupBal_setBal_self (bs : List (Address × Int)) (id : Address)
    (v : Int) : lookupBal (setBal bs id v) id = some v := by
  induction bs with
  | nil => simp [setBal, lookupBal]
  | cons p rest ih =>
    obtain ⟨a, w⟩ := p
    by_cases h : a = id
    · simp [setBal, h, lookupBal]
    · simp [setBal, h, lookupBal, ih]

theorem lookupBal_setBal_ne (bs : List (Address × Int)) (id c : Address)
    (v : Int) (h : c ≠ id) : lookupBal (setBal bs id v) c = lookupBal bs c := by
  induction bs with
  | nil =>
    simp [setBal, lookupBal]
    exact fun hh => h hh.symm
  | cons p rest ih =>
    obtain ⟨a, w⟩ := p
    by_cases ha : a = id
    · subst ha
      simp only [setBal, if_pos rfl, lookupBal]
      rw [if_neg (Ne.symm h), if_neg (Ne.symm h)]
    · simp [setBal, ha, lookupBal, ih]

theorem sumBal_setBal (bs : List (Address × Int)) (id : Address) (v : Int) :
    sumBal (setBal bs id v) = sumBal bs + v - (lookupBal bs id).getD 0 := by
  induction bs with
  | nil => simp [setBal, sumBal, lookupBal]
  | cons p rest ih =>
    obtain ⟨a, w⟩ := p
    by_cases h : a = id
    · subst h
      simp [setBal, sumBal, lookupBal]
      ring
    · simp only [setBal, if_neg h, sumBal, lookupBal, ih]
      ring

/-! ## The storage states the mutating operations commit -/

/-- The storage a successful `mint auths s dst amount` writes back. -/
def mintWrite (s : Storage) (dst : Address) (amount : Int) : Storage :=
  { s with balances := setBal s.balances dst ((lookupBal s.balances dst).getD 0 + amount) }

/-- The storage a successful `transfer auths s f dst amount` writes back:
the write under `f` happens first, then the write under `dst`, both computed
from balances read before either write. -/
def transferWrite (s : Storage) (f dst : Address) (amount : Int) : Storage :=
  { s with balances := setBal (setBal s.balances f ((lookupBal s.balances f).getD 0 - amount)) dst ((lookupBal s.balances dst).getD 0 + amount) }

theorem mint_ok (auths : List Address) (s : Storage) (a dst : Address)
    (amount : Int) (hadmin : s.admin = some a) (hauth : a ∈ auths) :
    Token.mint auths s dst amount = Except.ok (mintWrite s dst amount) := by
  simp [Token.mint, hadmin, hauth, mintWrite]

theorem mint_ok_inv (auths : List Address) (s s' : Storage) (dst : Address)
    (amount : Int) (h : Token.mint auths s dst amount = Except.ok s') :
    s' = mintWrite s dst amount := by
  cases hadm : s.admin with
  | none => simp [Token.mint, hadm] at h
  | some a =>
    by_cases hauth : a ∈ auths
    · simp [Token.mint, hadm, hauth] at h
      simp [mintWrite, ← h, hadm]
    · simp [Token.mint, hadm, hauth] at h

theorem transfer_ok (auths : List Address) (s : Storage) (f dst : Address)
    (amount : Int) (hf : f ∈ auths)
    (hle : amount ≤ (lookupBal s.balances f).getD 0) :
    Token.transfer auths s f dst amount = Except.ok (transferWrite s f dst amount) := by
  simp [Token.transfer, hf, not_lt.mpr hle, transferWrite]

theorem transfer_ok_inv (auths : List Address) (s s' : Storage) (f dst : Address)
    (amount : Int) (h : Token.transfer auths s f dst amount = Except.ok s') :
    f ∈ auths ∧ amount ≤ (lookupBal s.balances f).getD 0 ∧
    s' = transferWrite s f dst amount := by
  by_cases hf : f ∈ auths
  · by_cases hlt : (lookupBal s.balances f).getD 0 < amount
    · simp [Token.transfer, hf, hlt] at h
    · refine ⟨hf, not_lt.mp hlt, ?_⟩
      simp [Token.transfer, hf, hlt] at h
      simp [transferWrite, ← h]
  · simp [Token.transfer, hf] at h

/-! ## Claim theorems -/

/-- C1 (counterexample): the conservation claim fails in the case `from = to`:
with a stored balance of 5 under account 1, the self-transfer of 3 succeeds
and leaves balance 8, so the observed sum `balance(from) + balance(to)` goes
from 10 to 16. -/
theorem transfer_self_conservation_cex :
    Token.transfer [1] ⟨none, none, none, none, [(1, 5)]⟩ 1 1 3 =
      Except.ok ⟨none, none, none, none, [(1, 8)]⟩ ∧
    ¬ (Token.balance ⟨none, none, none, none, [(1, 8)]⟩ 1 +
         Token.balance ⟨none, none, none, none, [(1, 8)]⟩ 1 =
       Token.balance ⟨none, none, none, none, [(1, 5)]⟩ 1 +
         Token.balance ⟨none, none, none, none, [(1, 5)]⟩ 1) :=
  ⟨rfl, by decide⟩

/-- C1 (amended): for every transfer that succeeds with `from ≠ to`, the sum
`balance(from) + balance(to)` observed before the call equals the sum observed
after it. -/
theorem transfer_conserves_pair_sum (auths : List Address) (s s' : Storage)
    (f dst : Address) (amount : Int) (hne : f ≠ dst)
    (h : Token.transfer auths s f dst amount = Except.ok s') :
    Token.balance s' f + Token.balance s' dst =
      Token.balance s f + Token.balance s dst := by
  obtain ⟨hf, hle, rfl⟩ := transfer_ok_inv auths s s' f dst amount h
  simp [Token.balance, transferWrite, lookupBal_setBal_self,
    lookupBal_setBal_ne _ _ _ _ hne]

/-- C1 (witness): the amended conservation theorem at the concrete transfer
of 3 from account 1 (balance 5) to account 2 (no entry). -/
theorem transfer_conserves_pair_sum_witness :
    Token.balance (transferWrite ⟨none, none, none, none, [(1, 5)]⟩ 1 2 3) 1 +
        Token.balance (transferWrite ⟨none, none, none, none, [(1, 5)]⟩ 1 2 3) 2 =
      Token.balance ⟨none, none, none, none, [(1, 5)]⟩ 1 +
        Token.balance ⟨none, none, none, none, [(1, 5)]⟩ 2 :=
  transfer_conserves_pair_sum [1] _ _ 1 2 3 (by decide) rfl

/-- C2: a transfer whose amount strictly exceeds the sender's stored balance
(default 0) aborts with the insufficient-balance error; the `Except.error`
result carries no storage, so no balance entry (of `from`, `to` or anyone
else) is written — host atomicity.  The sender's authorization is assumed,
since the source checks `from.require_auth()` before reading any balance. -/
theorem transfer_insufficient_balance_fails (auths : List Address) (s : Storage)
    (f dst : Address) (amount : Int) (hf : f ∈ auths)
    (hgt : Token.balance s f < amount) :
    Token.transfer auths s f dst amount =
      Except.error TokenError.insufficientBalance := by
  have hlt : (lookupBal s.balances f).getD 0 < amount := hgt
  simp [Token.transfer, hf, hlt]

/-- C2 (witness): with balance 5 under account 1, the transfer of 9 to
account 2 fails with the insufficient-balance error. -/
theorem transfer_insufficient_witness :
    (1 : Address) ∈ [1] ∧
    Token.transfer [1] ⟨none, none, none, none, [(1, 5)]⟩ 1 2 9 =
      Except.error TokenError.insufficientBalance :=
  ⟨by decide, transfer_insufficient_balance_fails [1] _ 1 2 9 (by decide) (by decide)⟩

/-- C3: an authorized mint on an initialized contract (the `admin` key holds
`a` and `a` authorized the call) succeeds, and the new stored balance of the
target equals its prior balance (default 0) plus `amount` — for every `Int`
amount, so in particular for every signed 128-bit value, negative amounts
included, which decrease the target's balance. -/
theorem mint_adds_amount (auths : List Address) (s : Storage) (a dst : Address)
    (amount : Int) (hadmin : s.admin = some a) (hauth : a ∈ auths) :
    Token.mint auths s dst amount = Except.ok (mintWrite s dst amount) ∧
    Token.balance (mintWrite s dst amount) dst = Token.balance s dst + amount := by
  refine ⟨mint_ok auths s a dst amount hadmin hauth, ?_⟩
  simp [Token.balance, mintWrite, lookupBal_setBal_self]

/-- C3 (witness): the mint theorem at the concrete negative amount -7 on a
freshly initialized contract. -/
theorem mint_adds_amount_witness :
    (Token.init Storage.empty 1 6 "MyToken" "MTK").admin = some 1 ∧
    (Token.mint [1] (Token.init Storage.empty 1 6 "MyToken" "MTK") 5 (-7) =
       Except.ok (mintWrite (Token.init Storage.empty 1 6 "MyToken" "MTK") 5 (-7)) ∧
     Token.balance (mintWrite (Token.init Storage.empty 1 6 "MyToken" "MTK") 5 (-7)) 5 =
       Token.balance (Token.init Storage.empty 1 6 "MyToken" "MTK") 5 + (-7)) :=
  ⟨rfl, mint_adds_amount [1] _ 1 5 (-7) rfl (by decide)⟩

/-- Helper for C4: on a state whose `admin` key holds an authorized `a`, any
sequence of mints succeeds, keeps the `admin` key, and raises the total of
all balance entries by exactly the sum of the minted amounts. -/
theorem applyMints_ok_total (auths : List Address) (a : Address)
    (ms : List (Address × Int)) :
    ∀ s : Storage, s.admin = some a → a ∈ auths →
      ∃ s', applyMints auths s ms = Except.ok s' ∧ s'.admin = some a ∧
        totalBalances s' = totalBalances s + (ms.map Prod.snd).sum := by
  induction ms with
  | nil =>
    intro s h1 _
    exact ⟨s, rfl, h1, by simp⟩
  | cons m rest ih =>
    intro s h1 h2
    obtain ⟨dst, amt⟩ := m
    obtain ⟨s', hs', hadm', htot⟩ :=
      ih (mintWrite s dst amt) (by simp [mintWrite, h1]) h2
    refine ⟨s', ?_, hadm', ?_⟩
    · simp [applyMints, mint_ok auths s a dst amt h1 h2, hs']
    · rw [htot]
      simp [totalBalances, mintWrite, sumBal_setBal]
      ring

/-- C4: starting from a state with no balance entries (and an authorized
administrator configured), any finite sequence of mints succeeds and leaves
the sum of all stored balance entries equal to the sum of the minted amounts;
repeated mints to the same account accumulate in one entry rather than double
counting (the statement quantifies over arbitrary mint lists, duplicates
included). -/
theorem mint_sequence_conservation (auths : List Address) (a : Address)
    (s : Storage) (ms : List (Address × Int)) (hadmin : s.admin = some a)
    (hauth : a ∈ auths) (hempty : s.balances = []) :
    ∃ s', applyMints auths s ms = Except.ok s' ∧
      totalBalances s' = (ms.map Prod.snd).sum := by
  obtain ⟨s', h1, _, h3⟩ := applyMints_ok_total auths a ms s hadmin hauth
  refine ⟨s', h1, ?_⟩
  rw [h3]
  simp [totalBalances, hempty, sumBal]

/-- C4 (witness): three mints, two of them to the same account, total
10 + 7 + 3. -/
theorem mint_sequence_conservation_witness :
    ∃ s', applyMints [1] (Token.init Storage.empty 1 6 "MyToken" "MTK")
        [(5, 10), (5, 7), (6, 3)] = Except.ok s' ∧
      totalBalances s' = ([(5, 10), (5, 7), (6, 3)].map Prod.snd).sum :=
  mint_sequence_conservation [1] 1 _ _ rfl (by decide) rfl

/-- C5: when the configuration keys are absent, each of `name`, `symbol`,
`decimals` and `mint` fails with the missing-configuration error on reading
the absent key (the `Except.error` result carries no storage, so nothing is
written); after `initialize` has run, none of these operations can fail with
that error any more (`mint` may still fail, but only for authorization). -/
theorem uninitialized_ops_fail (s : Storage) (hadmin : s.admin = none)
    (hname : s.name = none) (hsym : s.symbol = none) (hdec : s.decimal = none) :
    Token.name s = Except.error TokenError.missingConfiguration ∧
    Token.symbol s = Except.error TokenError.missingConfiguration ∧
    Token.decimals s = Except.error TokenError.missingConfiguration ∧
    (∀ auths dst amount, Token.mint auths s dst amount =
      Except.error TokenError.missingConfiguration) ∧
    (∀ a d n y auths dst amount,
      Token.name (Token.init s a d n y) ≠
        Except.error TokenError.missingConfiguration ∧
      Token.symbol (Token.init s a d n y) ≠
        Except.error TokenError.missingConfiguration ∧
      Token.decimals (Token.init s a d n y) ≠
        Except.error TokenError.missingConfiguration ∧
      Token.mint auths (Token.init s a d n y) dst amount ≠
        Except.error TokenError.missingConfiguration) := by
  refine ⟨by simp [Token.name, hname], by simp [Token.symbol, hsym],
    by simp [Token.decimals, hdec], ?_, ?_⟩
  · intro auths dst amount
    simp [Token.mint, hadmin]
  · intro a d n y auths dst amount
    refine ⟨by simp [Token.name, Token.init], by simp [Token.symbol, Token.init],
      by simp [Token.decimals, Token.init], ?_⟩
    by_cases hauth : a ∈ auths
    · simp [Token.mint, Token.init, hauth]
    · simp [Token.mint, Token.init, hauth]

/-- C5 (witness): on the fresh storage, `name` and `mint` fail with the
missing-configuration error. -/
theorem uninitialized_ops_fail_witness :
    Token.name Storage.empty = Except.error TokenError.missingConfiguration ∧
    Token.mint [1] Storage.empty 5 10 =
      Except.error TokenError.missingConfiguration :=
  ⟨(uninitialized_ops_fail Storage.empty rfl rfl rfl rfl).1,
   (uninitialized_ops_fail Storage.empty rfl rfl rfl rfl).2.2.2.1 [1] 5 10⟩

/-- C6: `balance(id)` returns the stored balance entry of `id` when one
exists and 0 when none exists; it is a total pure function of the storage
(it has type `Storage → Address → Int`, so it can neither fail nor write). -/
theorem balance_query_spec (s : Storage) (id : Address) :
    (∀ v, lookupBal s.balances id = some v → Token.balance s id = v) ∧
    (lookupBal s.balances id = none → Token.balance s id = 0) :=
  ⟨fun v hv => by simp [Token.balance, hv], fun hv => by simp [Token.balance, hv]⟩

/-- C6 (witness): a stored entry (account 3, balance 42) is returned as is,
and an account with no entry (9) reads as 0. -/
theorem balance_query_spec_witness :
    Token.balance ⟨none, none, none, none, [(3, 42)]⟩ 3 = 42 ∧
    Token.balance ⟨none, none, none, none, [(3, 42)]⟩ 9 = 0 :=
  ⟨(balance_query_spec ⟨none, none, none, none, [(3, 42)]⟩ 3).1 42 rfl,
   (balance_query_spec ⟨none, none, none, none, [(3, 42)]⟩ 9).2 rfl⟩

/-- C7: `initialize` succeeds on every state and for any caller (it takes no
authorization argument, and is a total function), writes exactly the four
configuration keys — overwriting whatever was there, so a repeated call
silently re-configures — leaves the balance entries untouched, and afterwards
`name`, `symbol` and `decimals` return the values just written. -/
theorem init_configures (s : Storage) (a : Address) (d : Nat) (n y : SymStr) :
    (Token.init s a d n y).balances = s.balances ∧
    (∀ id, Token.balance (Token.init s a d n y) id = Token.balance s id) ∧
    Token.name (Token.init s a d n y) = Except.ok n ∧
    Token.symbol (Token.init s a d n y) = Except.ok y ∧
    Token.decimals (Token.init s a d n y) = Except.ok d ∧
    (Token.init s a d n y).admin = some a :=
  ⟨rfl, fun _ => rfl, rfl, rfl, rfl, rfl⟩

/-- C8: a self-transfer of `amount` at most the stored balance `b` succeeds
and leaves the sender's balance at `b + amount`: the second write, computed
from the balance read before the first write, overwrites the first, so the
total of all balances grows by `amount`. -/
theorem transfer_self_increases_total (auths : List Address) (s : Storage)
    (f : Address) (amount : Int) (hf : f ∈ auths)
    (hle : amount ≤ Token.balance s f) :
    Token.transfer auths s f f amount = Except.ok (transferWrite s f f amount) ∧
    Token.balance (transferWrite s f f amount) f = Token.balance s f + amount ∧
    totalBalances (transferWrite s f f amount) = totalBalances s + amount := by
  refine ⟨transfer_ok auths s f f amount hf hle, ?_, ?_⟩
  · simp [Token.balance, transferWrite, lookupBal_setBal_self]
  · simp [totalBalances, transferWrite, sumBal_setBal, lookupBal_setBal_self]
    ring

/-- C8 (witness): with balance 5 under account 1, the self-transfer of 3
succeeds, leaves balance 8, and the total grows by 3. -/
theorem transfer_self_increases_total_witness :
    Token.transfer [1] ⟨none, none, none, none, [(1, 5)]⟩ 1 1 3 =
      Except.ok (transferWrite ⟨none, none, none, none, [(1, 5)]⟩ 1 1 3) ∧
    Token.balance (transferWrite ⟨none, none, none, none, [(1, 5)]⟩ 1 1 3) 1 =
      Token.balance ⟨none, none, none, none, [(1, 5)]⟩ 1 + 3 ∧
    totalBalances (transferWrite ⟨none, none, none, none, [(1, 5)]⟩ 1 1 3) =
      totalBalances ⟨none, none, none, none, [(1, 5)]⟩ + 3 :=
  transfer_self_increases_total [1] _ 1 3 (by decide) (by decide)

/-- C9: `transfer` never checks the sign of `amount`.  For a negative amount
the balance test `from_balance < amount` passes whenever the sender's balance
is non-negative (in particular for a sender with no entry at all), so the
call succeeds carrying only the sender's authorization — the list `auths`
need not contain `dst` — and moves `amount < 0` from `f` to `dst`: `f` gains
`|amount|` and `dst` loses `|amount|`, a debit of `dst` that `dst` never
authorized. -/
theorem transfer_negative_amount_debits_recipient (auths : List Address)
    (s : Storage) (f dst : Address) (amount : Int) (hneg : amount < 0)
    (hne : f ≠ dst) (hf : f ∈ auths) (hbal : 0 ≤ Token.balance s f) :
    Token.transfer auths s f dst amount =
      Except.ok (transferWrite s f dst amount) ∧
    Token.balance (transferWrite s f dst amount) f =
      Token.balance s f - amount ∧
    Token.balance (transferWrite s f dst amount) dst =
      Token.balance s dst + amount := by
  have hle : amount ≤ (lookupBal s.balances f).getD 0 := le_trans hneg.le hbal
  refine ⟨transfer_ok auths s f dst amount hf hle, ?_, ?_⟩
  · simp [Token.balance, transferWrite, lookupBal_setBal_self,
      lookupBal_setBal_ne _ _ _ _ hne]
  · simp [Token.balance, transferWrite, lookupBal_setBal_self]

/-- C9 (witness): account 4 holds no entry (balance 0) and transfers -5 to
account 2 with only its own authorization (`auths = [4]`, and `2 ∉ [4]`);
the call succeeds, account 4 ends at 5 and account 2 at -5. -/
theorem transfer_negative_amount_witness :
    ((-5 : Int) < 0) ∧ (2 : Address) ∉ [4] ∧
    (Token.transfer [4] Storage.empty 4 2 (-5) =
       Except.ok (transferWrite Storage.empty 4 2 (-5)) ∧
     Token.balance (transferWrite Storage.empty 4 2 (-5)) 4 =
       Token.balance Storage.empty 4 - (-5) ∧
     Token.balance (transferWrite Storage.empty 4 2 (-5)) 2 =
       Token.balance Storage.empty 2 + (-5)) :=
  ⟨by decide, by decide,
   transfer_negative_amount_debits_recipient [4] Storage.empty 4 2 (-5)
     (by decide) (by decide) (by decide) (by decide)⟩

/-- C10 (frame): a successful `mint` writes only the balance entry of its
target, a successful `transfer` writes only the entries of its two parties,
and neither touches any configuration key; `balance` is a pure read (its type
`Storage → Address → Int` returns no storage at all). -/
theorem mint_transfer_frame (auths : List Address) (s s' : Storage)
    (f dst c : Address) (amount : Int) :
    (Token.mint auths s dst amount = Except.ok s' → c ≠ dst →
      Token.balance s' c = Token.balance s c ∧ s'.admin = s.admin ∧
      s'.decimal = s.decimal ∧ s'.name = s.name ∧ s'.symbol = s.symbol) ∧
    (Token.transfer auths s f dst amount = Except.ok s' → c ≠ f → c ≠ dst →
      Token.balance s' c = Token.balance s c ∧ s'.admin = s.admin ∧
      s'.decimal = s.decimal ∧ s'.name = s.name ∧ s'.symbol = s.symbol) := by
  constructor
  · intro h hc
    obtain rfl := mint_ok_inv auths s s' dst amount h
    refine ⟨?_, rfl, rfl, rfl, rfl⟩
    simp [Token.balance, mintWrite, lookupBal_setBal_ne _ _ _ _ hc]
  · intro h hcf hcd
    obtain ⟨_, _, rfl⟩ := transfer_ok_inv auths s s' f dst amount h
    refine ⟨?_, rfl, rfl, rfl, rfl⟩
    simp [Token.balance, transferWrite, lookupBal_setBal_ne _ _ _ _ hcf,
      lookupBal_setBal_ne _ _ _ _ hcd]

/-- C10 (witness): account 7 and the configuration are untouched by the mint
of 4 to account 5 on a configured state holding balance 9 under account 5. -/
theorem mint_transfer_frame_witness :
    Token.balance (mintWrite ⟨some 1, some 6, some "T", some "K", [(5, 9)]⟩ 5 4) 7 =
      Token.balance ⟨some 1, some 6, some "T", some "K", [(5, 9)]⟩ 7 ∧
    (mintWrite ⟨some 1, some 6, some "T", some "K", [(5, 9)]⟩ 5 4).admin =
      Storage.admin ⟨some 1, some 6, some "T", some "K", [(5, 9)]⟩ ∧
    (mintWrite ⟨some 1, some 6, some "T", some "K", [(5, 9)]⟩ 5 4).decimal =
      Storage.decimal ⟨some 1, some 6, some "T", some "K", [(5, 9)]⟩ ∧
    (mintWrite ⟨some 1, some 6, some "T", some "K", [(5, 9)]⟩ 5 4).name =
      Storage.name ⟨some 1, some 6, some "T", some "K", [(5, 9)]⟩ ∧
    (mintWrite ⟨some 1, some 6, some "T", some "K", [(5, 9)]⟩ 5 4).symbol =
      Storage.symbol ⟨some 1, some 6, some "T", some "K", [(5, 9)]⟩ :=
  (mint_transfer_frame [1] ⟨some 1, some 6, some "T", some "K", [(5, 9)]⟩
    (mintWrite ⟨some 1, some 6, some "T", some "K", [(5, 9)]⟩ 5 4)
    5 5 7 4).1 rfl (by decide)
